import Mathlib

/-!
# Verification of the rbxauth authentication client

Shallow embedding of the rbxauth repository's canonical (Auth v2 JSON)
implementation: the `Config.requestAPI` engine with the anti-forgery token
retry rule, `Config.LoginCred` / `Config.Login` / `Config.Logout`,
`Config.getUsername` (identity lookup), the two-step verification `Step`
(`Verify` / `Resend`), and the cookie codec (`ReadCookies` / `WriteCookies`).

Modelling conventions:
* Go strings are Lean `String`s, except in the cookie codec where the
  byte-level parsing is modelled over `List Char`.
* An HTTP response is the data the code inspects: status code, the value of
  the `X-CSRF-TOKEN` response header (`""` means absent, as returned by Go's
  `Header.Get`), the decoded JSON body (`none` models a JSON decode error),
  and the response cookies (opaque here).
* The HTTP client is modelled as the list of responses it will return for
  successive `client.Do` calls.  When the code would issue a request beyond
  the provided responses, the result is marked `pending := true`: this lets
  non-termination of the retry loop be observed as "for every `n`, `n`
  responses are not enough".
* `encoding/json` semantics are modelled faithfully: a JSON object's fields
  are `Option`s (`none` = key absent), and decoding into an existing struct
  leaves fields whose key is absent unchanged (Go's `json.Decoder.Decode`
  only sets fields present in the input; on a retry the same struct is
  decoded into again).
* Go mutation through pointer receivers is explicit state passing; a value
  receiver (e.g. `func (c Config) LoginCred`) means the callee works on a
  copy, so mutations never reach the caller's value.
-/

namespace Rbxauth

/-- `ErrorResponse` (part_003): one structured API error `{code, message, field}`. -/
structure ErrorResponse where
  Code : Int
  Message : String
  Field : String
deriving DecidableEq, Repr

/-- `userResponseV2` (part_003): the `user` object of a login response. -/
structure userResponseV2 where
  ID : Int
  Name : String
deriving DecidableEq, Repr

/-- `twoStepVerificationSentResponse` (part_003): `{mediaType, ticket}`. -/
structure twoStepVerificationSentResponse where
  MediaType : String
  Ticket : String
deriving DecidableEq, Repr

/-- A session cookie; the claims only concern its name and value, modelled as
character lists (Go byte strings). -/
structure Cookie where
  Name : List Char
  Value : List Char
deriving DecidableEq, Repr

/-- The error values the client produces, mirroring the Go error types:
`statusError` (part_000) with a `nil` wrapped error, `statusErrorOf` for a
`statusError` wrapping an inner error, `errorsResponse`-as-error (part_003),
JSON decode errors, `strconv.ParseInt` errors, and
`fmt.Errorf("msg: %w", err)` wrapping. -/
inductive Err where
  | statusError (code : Int)
  | statusErrorOf (code : Int) (resp : Err)
  | errorsResponse (errs : List ErrorResponse)
  | jsonDecode
  | parseIntError (s : String)
  | wrap (msg : String) (err : Err)
deriving DecidableEq, Repr

/-- `Config` (part_000): the claims only depend on the mutable anti-forgery
token field `Token`; the endpoint URL fields do not affect any claim. -/
structure Config where
  Token : String
deriving DecidableEq, Repr

/-- An outbound request as the code inspects it: the value of its
`X-CSRF-TOKEN` header (`""` = absent) and its operation-specific payload. -/
structure Request (ρ : Type) where
  token : String
  body : ρ
deriving DecidableEq, Repr

/-- An HTTP response as the code inspects it.  `body = none` models a JSON
body that fails to decode. -/
structure Response (j : Type) where
  StatusCode : Int
  token : String
  body : Option j
  cookies : List Cookie
deriving DecidableEq, Repr

/-- `ifStatus` (part_000 lines 54-61): wraps `err` in a `statusError` if
`code` is not 2XX, and returns `err` otherwise. -/
def ifStatus (code : Int) (err : Option Err) : Option Err :=
  if code < 200 ∨ 300 ≤ code then
    some (match err with
          | none => .statusError code
          | some e => .statusErrorOf code e)
  else err

/-- Result of `Config.requestAPI`: Go's `(resp, err)` pair, together with the
decoded body state `apiResp` (Go mutates the caller's struct through the
interface pointer), the final config (pointer receiver `*Config`), the
requests actually sent in order, and `pending` (the call would send yet
another request beyond the supplied responses). -/
structure RAResult (σ j ρ : Type) where
  resp : Option (Response j)
  apiResp : σ
  err : Option Err
  cfg : Config
  issued : List (Request ρ)
  pending : Bool
deriving Repr

/-- `Config.requestAPI` (part_000 lines 92-130), parametrised by the JSON
decode-merge `dec` for the body struct and the `errResp()` projection
`errsOf`.  Sets the token header when a token is known, sends, learns a new
token from the response header, decodes, and on a 403 whose first API error
has code 0 when no token header was sent, retries the cloned request against
the remaining responses. -/
def requestAPI (dec : σ → j → σ) (errsOf : σ → List ErrorResponse)
    (cfg : Config) (req : Request ρ) (apiResp : σ) :
    List (Response j) → RAResult σ j ρ
  | [] =>
      { resp := none, apiResp := apiResp, err := none, cfg := cfg,
        issued := [if cfg.Token ≠ "" then { req with token := cfg.Token } else req],
        pending := true }
  | r :: rest =>
      let req' := if cfg.Token ≠ "" then { req with token := cfg.Token } else req
      let cfg' := if r.token ≠ "" then { cfg with Token := r.token } else cfg
      match r.body with
      | none =>
          { resp := some r, apiResp := apiResp,
            err := ifStatus r.StatusCode (some .jsonDecode),
            cfg := cfg', issued := [req'], pending := false }
      | some bj =>
          let st := dec apiResp bj
          match errsOf st with
          | [] =>
              { resp := some r, apiResp := st, err := ifStatus r.StatusCode none,
                cfg := cfg', issued := [req'], pending := false }
          | e0 :: es =>
              if r.StatusCode = 403 ∧ e0.Code = 0 ∧ req'.token = "" then
                let r2 := requestAPI dec errsOf cfg' req' st rest
                { r2 with issued := req' :: r2.issued }
              else
                { resp := none, apiResp := st,
                  err := ifStatus r.StatusCode (some (.errorsResponse (e0 :: es))),
                  cfg := cfg', issued := [req'], pending := false }

/-! ## Per-operation response bodies and their `encoding/json` decode-merge

Each `...Json` structure is the wire object: a field is `none` when the key
is absent from the JSON.  Each plain structure is the Go struct that is
decoded into; `decode...` merges a wire object into the current struct value,
leaving fields whose key is absent unchanged (Go `json.Unmarshal` rule). -/

/-- Wire form of `loginResponse` (part_003). -/
structure loginResponseJson where
  user : Option userResponseV2 := none
  twoStepVerificationData : Option twoStepVerificationSentResponse := none
  errors : Option (List ErrorResponse) := none
deriving DecidableEq, Repr

/-- `loginResponse` (part_003) as the decoded Go struct: `User`,
`TwoStepVerificationData`, and the embedded `errorsResponse.Errors`. -/
structure loginResponse where
  User : Option userResponseV2
  TwoStepVerificationData : Option twoStepVerificationSentResponse
  Errors : List ErrorResponse
deriving DecidableEq, Repr

/-- Zero value of `loginResponse`. -/
def loginResponseInit : loginResponse :=
  { User := none, TwoStepVerificationData := none, Errors := [] }

/-- Decode a login-response JSON object into an existing `loginResponse`. -/
def decodeLoginResponse (st : loginResponse) (bj : loginResponseJson) : loginResponse :=
  { User := match bj.user with | some u => some u | none => st.User,
    TwoStepVerificationData :=
      match bj.twoStepVerificationData with | some t => some t | none => st.TwoStepVerificationData,
    Errors := bj.errors.getD st.Errors }

/-- Wire form of a bare `errorsResponse` body (logout, verify). -/
structure errorsResponseJson where
  errors : Option (List ErrorResponse) := none
deriving DecidableEq, Repr

/-- `errorsResponse` (part_003) as the decoded Go struct. -/
structure errorsResponse where
  Errors : List ErrorResponse
deriving DecidableEq, Repr

/-- Zero value of `errorsResponse`. -/
def errorsResponseInit : errorsResponse := ⟨[]⟩

/-- Decode an errors-response JSON object into an existing `errorsResponse`. -/
def decodeErrorsResponse (st : errorsResponse) (bj : errorsResponseJson) : errorsResponse :=
  ⟨bj.errors.getD st.Errors⟩

/-- Wire form of the resend response body
(`twoStepVerificationSentResponse` + `errorsResponse`, step.go lines 73-76). -/
structure resendResponseJson where
  mediaType : Option String := none
  ticket : Option String := none
  errors : Option (List ErrorResponse) := none
deriving DecidableEq, Repr

/-- The anonymous struct `Step.Resend` decodes into. -/
structure resendResponse where
  MediaType : String
  Ticket : String
  Errors : List ErrorResponse
deriving DecidableEq, Repr

/-- Zero value of the resend response struct. -/
def resendResponseInit : resendResponse := ⟨"", "", []⟩

/-- Decode a resend-response JSON object into an existing `resendResponse`. -/
def decodeResendResponse (st : resendResponse) (bj : resendResponseJson) : resendResponse :=
  { MediaType := bj.mediaType.getD st.MediaType,
    Ticket := bj.ticket.getD st.Ticket,
    Errors := bj.errors.getD st.Errors }

/-- Wire form of the identity-lookup response body (anonymous struct
`{ Username string; errorsResponse }`, part_000 lines 267-270). -/
structure userResponseJson where
  Username : Option String := none
  errors : Option (List ErrorResponse) := none
deriving DecidableEq, Repr

/-- The anonymous struct `Config.getUsername` decodes into. -/
structure userResponse where
  Username : String
  Errors : List ErrorResponse
deriving DecidableEq, Repr

/-- Zero value of the lookup response struct. -/
def userResponseInit : userResponse := ⟨"", []⟩

/-- Decode a lookup-response JSON object into an existing `userResponse`. -/
def decodeUserResponse (st : userResponse) (bj : userResponseJson) : userResponse :=
  { Username := bj.Username.getD st.Username,
    Errors := bj.errors.getD st.Errors }

/-! ## Credentials and the login request body -/

/-- `Cred` (part_000 lines 287-291): the credential kind and identifier.
The Go field `Type` is spelled `ctype` here because `Type` is reserved in
Lean; `Ident` keeps its name. -/
structure Cred where
  ctype : String
  Ident : String
deriving DecidableEq, Repr

/-- `loginRequest` (part_003): the body POSTed to the login endpoint. -/
structure loginRequest where
  CredType : String
  CredValue : String
  Password : String
deriving DecidableEq, Repr

/-- `strings.ToLower` as the code uses it: lowercase each character.  Only
the ASCII range matters here, since the result is only ever compared with
the ASCII literal "userid". -/
def lowerAscii (s : String) : String := ⟨s.data.map Char.toLower⟩

/-- `strconv.ParseInt(s, 10, 64)` modelled as a total function: optional
sign, non-empty ASCII digits, result within the signed 64-bit range,
otherwise `none` (Go returns a non-nil error in exactly those cases). -/
def parseInt64 (s : String) : Option Int :=
  match s.data with
  | [] => none
  | c :: rest =>
      let sign : Int := if c = '-' then -1 else 1
      let digits : List Char := if c = '-' ∨ c = '+' then rest else c :: rest
      if digits.isEmpty ∨ ¬ digits.all Char.isDigit then none
      else
        let mag : Int := (digits.foldl (fun a ch => a * 10 + (ch.toNat - 48)) 0 : Nat)
        let n : Int := sign * mag
        if -9223372036854775808 ≤ n ∧ n < 9223372036854775808 then some n else none

/-! ## Operations of the Session Client (part_000) -/

/-- Result of `Config.getUsername`.  `cfg` is the final state of the
callee's *local* configuration copy: `getUsername` has a value receiver
`(c Config)` (part_000 line 249), so this state is never seen by the
caller. -/
structure getUsernameResult where
  name : String
  err : Option Err
  cfg : Config
  issued : List (Request Int)
  pending : Bool
deriving Repr

/-- `Config.getUsername` (part_000 lines 249-275): GET the identity-lookup
endpoint with the user ID substituted, via `requestAPI`; errors are wrapped
as `"user from ID: %w"`. -/
def getUsername (c : Config) (userID : Int) (resps : List (Response userResponseJson)) :
    getUsernameResult :=
  let ra := requestAPI decodeUserResponse userResponse.Errors c
    { token := "", body := userID } userResponseInit resps
  match ra.err with
  | some e =>
      { name := "", err := some (.wrap "user from ID" e), cfg := ra.cfg,
        issued := ra.issued, pending := ra.pending }
  | none =>
      if ra.pending then
        { name := "", err := none, cfg := ra.cfg, issued := ra.issued, pending := true }
      else
        { name := ra.apiResp.Username, err := none, cfg := ra.cfg,
          issued := ra.issued, pending := false }

/-- `twoStepVerificationTicketRequest` (part_003). -/
structure twoStepVerificationTicketRequest where
  Username : String
  Ticket : String
  ActionType : String
deriving DecidableEq, Repr

/-- `twoStepVerificationVerifyRequest` (part_003): the embedded ticket
request plus `Code` and `RememberDevice`. -/
structure twoStepVerificationVerifyRequest where
  ticketRequest : twoStepVerificationTicketRequest
  Code : String
  RememberDevice : Bool
deriving DecidableEq, Repr

/-- `Step` (step.go lines 11-17): its own configuration copy, the pending
verify request, and the exported `MediaType`. -/
structure Step where
  cfg : Config
  req : twoStepVerificationVerifyRequest
  MediaType : String
deriving DecidableEq, Repr

/-- The environment a `LoginCred` call runs against: the responses the HTTP
client returns for lookup requests and for login requests, in order. -/
structure LoginEnv where
  lookupResps : List (Response userResponseJson)
  loginResps : List (Response loginResponseJson)
deriving Repr

/-- Result of `Config.LoginCred`: Go's `(cookies, step, err)` triple plus
the request traces, the final state `internalCfg` of the callee's local
configuration copy (value receiver), whether the call ran out of supplied
responses (`pending`), and whether it dereferenced a nil `User` pointer
(`panicked`, from `apiResp.User.Name` at part_000 line 197). -/
structure LoginCredResult where
  cookies : List Cookie
  step : Option Step
  err : Option Err
  lookupIssued : List (Request Int)
  loginIssued : List (Request loginRequest)
  internalCfg : Config
  pending : Bool
  panicked : Bool
deriving Repr

/-- The part of `Config.LoginCred` after credential resolution (part_000
lines 168-207): marshal the login request, send it through `requestAPI`,
then branch on `TwoStepVerificationData`. -/
def loginMain (c : Config) (cred : Cred) (password : String) (env : LoginEnv)
    (lookupIssued : List (Request Int)) : LoginCredResult :=
  let body : loginRequest :=
    { CredType := cred.ctype, CredValue := cred.Ident, Password := password }
  let ra := requestAPI decodeLoginResponse loginResponse.Errors c
    { token := "", body := body } loginResponseInit env.loginResps
  match ra.err with
  | some e =>
      { cookies := [], step := none, err := some (.wrap "login" e),
        lookupIssued := lookupIssued, loginIssued := ra.issued,
        internalCfg := ra.cfg, pending := ra.pending, panicked := false }
  | none =>
      if ra.pending then
        { cookies := [], step := none, err := none,
          lookupIssued := lookupIssued, loginIssued := ra.issued,
          internalCfg := ra.cfg, pending := true, panicked := false }
      else
        let st := ra.apiResp
        let respCookies := (ra.resp.map Response.cookies).getD []
        match st.TwoStepVerificationData with
        | some tsd =>
            match st.User with
            | none =>
                { cookies := [], step := none, err := none,
                  lookupIssued := lookupIssued, loginIssued := ra.issued,
                  internalCfg := ra.cfg, pending := false, panicked := true }
            | some u =>
                { cookies := respCookies,
                  step := some
                    { cfg := ra.cfg, MediaType := tsd.MediaType,
                      req := { ticketRequest :=
                                 { Username := u.Name, Ticket := tsd.Ticket,
                                   ActionType := "Login" },
                               Code := "", RememberDevice := false } },
                  err := none, lookupIssued := lookupIssued, loginIssued := ra.issued,
                  internalCfg := ra.cfg, pending := false, panicked := false }
        | none =>
            { cookies := respCookies, step := none, err := none,
              lookupIssued := lookupIssued, loginIssued := ra.issued,
              internalCfg := ra.cfg, pending := false, panicked := false }

/-- `Config.LoginCred` (part_000 lines 149-207).  Value receiver: the callee
works on a copy of `c`.  A credential whose `Type` lowercases to "userid"
is resolved first: parse the identifier as an `int64` (error wrapped
`"parse user ID"`) and look the username up via `getUsername` (passing the
config *by value*, so token updates in the lookup are lost). All errors are
wrapped `"login: %w"` by the deferred handler. -/
def LoginCred (c : Config) (cred : Cred) (password : String) (env : LoginEnv) :
    LoginCredResult :=
  if lowerAscii cred.ctype = "userid" then
    match parseInt64 cred.Ident with
    | none =>
        { cookies := [], step := none,
          err := some (.wrap "login" (.wrap "parse user ID" (.parseIntError cred.Ident))),
          lookupIssued := [], loginIssued := [], internalCfg := c,
          pending := false, panicked := false }
    | some userID =>
        let gu := getUsername c userID env.lookupResps
        match gu.err with
        | some e =>
            { cookies := [], step := none, err := some (.wrap "login" e),
              lookupIssued := gu.issued, loginIssued := [], internalCfg := c,
              pending := gu.pending, panicked := false }
        | none =>
            if gu.pending then
              { cookies := [], step := none, err := none,
                lookupIssued := gu.issued, loginIssued := [], internalCfg := c,
                pending := true, panicked := false }
            else
              loginMain c { ctype := "Username", Ident := gu.name } password env gu.issued
  else
    loginMain c cred password env []

/-- `Config.Login` (part_000 lines 210-212): `LoginCred` with a Username
credential. -/
def Login (c : Config) (username password : String) (env : LoginEnv) : LoginCredResult :=
  LoginCred c { ctype := "Username", Ident := username } password env

/-- Go calling semantics of `func (c Config) LoginCred(...)` (part_000 line
149): the receiver is a *value*, so the callee mutates only its own copy and
the configuration the caller observes after the call is the unchanged
argument `c`. -/
def loginCredCallerCfgAfter (c : Config) (_cred : Cred) (_password : String)
    (_env : LoginEnv) : Config := c

/-- Result of `Config.Logout`. -/
structure LogoutResult where
  err : Option Err
  cfg : Config
  issued : List (Request (List Cookie))
  pending : Bool
deriving Repr

/-- `Config.Logout` (part_000 lines 225-247): POST the cookies to the logout
endpoint via `requestAPI` decoding a bare `errorsResponse`; errors wrapped
`"logout: %w"`. -/
def Logout (c : Config) (cookies : List Cookie) (resps : List (Response errorsResponseJson)) :
    LogoutResult :=
  let ra := requestAPI decodeErrorsResponse errorsResponse.Errors c
    { token := "", body := cookies } errorsResponseInit resps
  { err := ra.err.map (fun e => .wrap "logout" e), cfg := ra.cfg,
    issued := ra.issued, pending := ra.pending }

/-- Result of `Step.Verify`: Go's `(cookies, err)` plus the post-call step
(`s.cfg` is mutated through the `*Step` receiver by `requestAPI`). -/
structure VerifyResult where
  cookies : List Cookie
  err : Option Err
  step : Step
  issued : List (Request twoStepVerificationVerifyRequest)
  pending : Bool
deriving Repr

/-- `Step.Verify` (step.go lines 24-51): build the request body from a
*copy* of `s.req` with `Code`/`RememberDevice` filled in, send it with the
step's own configuration, and return the response cookies on success;
errors wrapped `"verify: %w"`. -/
def Step.Verify (s : Step) (code : String) (remember : Bool)
    (resps : List (Response errorsResponseJson)) : VerifyResult :=
  let apiReq := { s.req with Code := code, RememberDevice := remember }
  let ra := requestAPI decodeErrorsResponse errorsResponse.Errors s.cfg
    { token := "", body := apiReq } errorsResponseInit resps
  let s' : Step := { s with cfg := ra.cfg }
  match ra.err with
  | some e =>
      { cookies := [], err := some (.wrap "verify" e), step := s',
        issued := ra.issued, pending := ra.pending }
  | none =>
      if ra.pending then
        { cookies := [], err := none, step := s', issued := ra.issued, pending := true }
      else
        { cookies := (ra.resp.map Response.cookies).getD [], err := none, step := s',
          issued := ra.issued, pending := false }

/-- Result of `Step.Resend`: Go's `err` plus the post-call step, the
response `requestAPI` returned and the struct it decoded into. -/
structure ResendResult where
  err : Option Err
  step : Step
  raResp : Option (Response resendResponseJson)
  apiResp : resendResponse
  issued : List (Request twoStepVerificationTicketRequest)
  pending : Bool
deriving Repr

/-- `Step.Resend` (step.go lines 54-83): POST the embedded ticket request;
on success overwrite `s.MediaType` and `s.req.Ticket` from the decoded
response.  (The error-wrapping closure at lines 55-59 is not deferred, so
errors are returned unwrapped.) -/
def Step.Resend (s : Step) (resps : List (Response resendResponseJson)) : ResendResult :=
  let ra := requestAPI decodeResendResponse resendResponse.Errors s.cfg
    { token := "", body := s.req.ticketRequest } resendResponseInit resps
  match ra.err with
  | some e =>
      { err := some e, step := { s with cfg := ra.cfg }, raResp := ra.resp,
        apiResp := ra.apiResp, issued := ra.issued, pending := ra.pending }
  | none =>
      if ra.pending then
        { err := none, step := { s with cfg := ra.cfg }, raResp := ra.resp,
          apiResp := ra.apiResp, issued := ra.issued, pending := true }
      else
        let tr' := { s.req.ticketRequest with Ticket := ra.apiResp.Ticket }
        let req' := { s.req with ticketRequest := tr' }
        let s' : Step := { cfg := ra.cfg, req := req', MediaType := ra.apiResp.MediaType }
        { err := none, step := s', raResp := ra.resp, apiResp := ra.apiResp,
          issued := ra.issued, pending := false }

/-! ## Cookie codec (cookies.go)

`WriteCookies` formats each cookie with `http.Cookie.String` and emits one
`Set-Cookie` header line per cookie (`http.Header.Write` keeps the order of
the values of a single key); `ReadCookies` parses the lines back with
`http.Response.Cookies`, i.e. `net/http`'s `readSetCookies`.  The model
works at the level of the list of `Set-Cookie` header values (character
lists); `textproto.ReadMIMEHeader` on an empty reader yields no headers and
`io.EOF`, which `ReadCookies` treats as success, so the empty input is the
empty line list.  Cookie attributes (Path, Domain, ...) are serialized after
the leading `name=value` pair and parsed from the parts after the first `;`,
so they do not interact with the name/value round trip modelled here. -/

/-- `httpguts.IsTokenRune`: the characters legal in a cookie name (RFC 2616
token), written out by code point: the ASCII letters (65-90, 97-122), the
digits (48-57), and the symbols from Go's token table
(`! # $ % & * + - . ^ _ | ~` plus apostrophe 39 and backquote 96). -/
def isTokenRune (c : Char) : Bool :=
  (65 ≤ c.toNat ∧ c.toNat ≤ 90) ∨ (97 ≤ c.toNat ∧ c.toNat ≤ 122) ∨
    (48 ≤ c.toNat ∧ c.toNat ≤ 57) ∨
    c.toNat = 33 ∨ c.toNat = 35 ∨ c.toNat = 36 ∨ c.toNat = 37 ∨ c.toNat = 38 ∨
    c.toNat = 39 ∨ c.toNat = 42 ∨ c.toNat = 43 ∨ c.toNat = 45 ∨ c.toNat = 46 ∨
    c.toNat = 94 ∨ c.toNat = 95 ∨ c.toNat = 96 ∨ c.toNat = 124 ∨ c.toNat = 126

/-- `net/http isCookieNameValid`: non-empty and made of token characters. -/
def isCookieNameValid (raw : List Char) : Bool :=
  ¬ raw.isEmpty ∧ raw.all isTokenRune

/-- `net/http cookieNameSanitizer`: newline and carriage return become `-`. -/
def sanitizeCookieName (n : List Char) : List Char :=
  n.map fun c => if c = '\n' ∨ c = '\r' then '-' else c

/-- `net/http validCookieValueByte`: printable ASCII (32-126) except double
quote (34), semicolon (59) and backslash (92). -/
def validCookieValueByte (c : Char) : Bool :=
  32 ≤ c.toNat ∧ c.toNat < 127 ∧ c.toNat ≠ 34 ∧ c.toNat ≠ 59 ∧ c.toNat ≠ 92

/-- The double-quote character. -/
def dquote : Char := Char.ofNat 34

/-- `net/http sanitizeCookieValue`: drop invalid bytes; if the result
contains a space or comma, wrap it in double quotes. -/
def sanitizeCookieValue (v : List Char) : List Char :=
  let f := v.filter validCookieValueByte
  if f.isEmpty then f
  else if ' ' ∈ f ∨ ',' ∈ f then dquote :: f ++ [dquote]
  else f

/-- `http.Cookie.String` restricted to the name/value pair: empty for an
invalid name, else `name=value` with the sanitized value. -/
def cookieString (c : Cookie) : List Char :=
  if ¬ isCookieNameValid c.Name then []
  else sanitizeCookieName c.Name ++ '=' :: sanitizeCookieValue c.Value

/-- `WriteCookies` (cookies.go lines 26-36): one `Set-Cookie` header value
per cookie, in order. -/
def WriteCookies (cookies : List Cookie) : List (List Char) :=
  cookies.map cookieString

/-- `textproto` ASCII space test used by `TrimString`: space, tab, newline,
carriage return. -/
def isASCIISpace (c : Char) : Bool :=
  c.toNat = 32 ∨ c.toNat = 9 ∨ c.toNat = 10 ∨ c.toNat = 13

/-- `textproto.TrimString`: strip leading and trailing ASCII space. -/
def trimString (l : List Char) : List Char :=
  ((l.dropWhile isASCIISpace).reverse.dropWhile isASCIISpace).reverse

/-- `strings.Split(l, ";")`: split at every semicolon, keeping empty parts. -/
def splitSemi : List Char → List (List Char)
  | [] => [[]]
  | c :: rest =>
      if c = ';' then [] :: splitSemi rest
      else
        match splitSemi rest with
        | [] => [[c]]
        | p :: ps => (c :: p) :: ps

/-- `net/http parseCookieValue` with `allowDoubleQuote`: strip one pair of
surrounding double quotes, then require every byte valid. -/
def parseCookieValue (raw : List Char) : Option (List Char) :=
  let raw :=
    if 1 < raw.length ∧ raw.head? = some dquote ∧ raw.getLast? = some dquote then
      (raw.drop 1).dropLast
    else raw
  if raw.all validCookieValueByte then some raw else none

/-- One line of `net/http readSetCookies`: trim, split on `;`, take the
leading `name=value` pair, validate the name, parse the value; `none` when
the line is skipped (`continue` in the source). -/
def readSetCookieLine (line : List Char) : Option Cookie :=
  let parts := splitSemi (trimString line)
  match parts with
  | [] => none
  | p0 :: restParts =>
      if restParts.isEmpty ∧ p0.isEmpty then none
      else
        let p0 := trimString p0
        let name := p0.takeWhile (fun c => c ≠ '=')
        if name.length = p0.length then none
        else if ¬ isCookieNameValid name then none
        else
          match parseCookieValue (p0.drop (name.length + 1)) with
          | none => none
          | some v => some { Name := name, Value := v }

/-- `ReadCookies` (cookies.go lines 14-22): parse each `Set-Cookie` header
value, skipping invalid lines; the empty input yields the empty list. -/
def ReadCookies (lines : List (List Char)) : List Cookie :=
  lines.filterMap readSetCookieLine

/-- The status code recoverable from an error through `errors`-style
unwrapping, i.e. the `StatusCode()` of the innermost reachable
`statusError` (part_000 lines 49-52). -/
def statusCodeOfErr : Err → Option Int
  | .statusError code => some code
  | .statusErrorOf code _ => some code
  | .wrap _ e => statusCodeOfErr e
  | .errorsResponse _ => none
  | .jsonDecode => none
  | .parseIntError _ => none

/-! ## Concrete scenario data

Stub endpoint responses used to evaluate the operations at concrete
inputs. -/

/-- A 403 token-validation-failure login response (first API error code 0)
that does *not* carry a fresh token header. -/
def tokenFailNoToken : Response loginResponseJson :=
  { StatusCode := 403, token := "",
    body := some { errors := some [{ Code := 0, Message := "Token Validation Failed", Field := "" }] },
    cookies := [] }

/-- A 403 token-validation-failure login response carrying the fresh token
`t` in its header. -/
def tokenFailWithToken (t : String) : Response loginResponseJson :=
  { StatusCode := 403, token := t,
    body := some { errors := some [{ Code := 0, Message := "Token Validation Failed", Field := "" }] },
    cookies := [] }

/-- A successful login response that requires two-step verification: carries
`twoStepVerificationData`, the resolved user, an explicitly empty error
list, and one session cookie. -/
def login2SVSuccess : Response loginResponseJson :=
  { StatusCode := 200, token := "",
    body := some { user := some { ID := 1, Name := "alice" },
                   twoStepVerificationData := some { MediaType := "Email", Ticket := "TK" },
                   errors := some [] },
    cookies := [{ Name := ['s'], Value := ['v'] }] }

/-- A successful login response with no second factor and one session
cookie. -/
def loginPlainSuccess : Response loginResponseJson :=
  { StatusCode := 200, token := "",
    body := some { errors := some [] },
    cookies := [{ Name := ['s'], Value := ['v'] }] }

/-- A successful identity-lookup response naming the user "alice". -/
def lookupAlice : Response userResponseJson :=
  { StatusCode := 200, token := "",
    body := some { Username := some "alice", errors := some [] },
    cookies := [] }

/-- A successful identity-lookup response that also carries a fresh token
"T2" in its header. -/
def lookupAliceWithToken : Response userResponseJson :=
  { StatusCode := 200, token := "T2",
    body := some { Username := some "alice", errors := some [] },
    cookies := [] }

/-- A pending verification step bound to a fresh configuration. -/
def stepExample : Step :=
  { cfg := { Token := "" },
    req := { ticketRequest := { Username := "u", Ticket := "T1", ActionType := "Login" },
             Code := "", RememberDevice := false },
    MediaType := "Email" }

/-- A successful resend response rotating the ticket to "T2" over "SMS". -/
def resendOkResp : Response resendResponseJson :=
  { StatusCode := 200, token := "",
    body := some { mediaType := some "SMS", ticket := some "T2", errors := some [] },
    cookies := [] }

/-- A failing resend response carrying one API error. -/
def resendErrResp : Response resendResponseJson :=
  { StatusCode := 400, token := "",
    body := some { errors := some [{ Code := 1, Message := "bad", Field := "" }] },
    cookies := [] }

/-- A login endpoint that first 403s with a code-0 error carrying fresh
token `t`, then succeeds with a two-step challenge for user `u` and one
session cookie `ck`. -/
def retryThen2SV (t u : String) (ck : Cookie) : LoginEnv :=
  { lookupResps := [],
    loginResps := [tokenFailWithToken t,
      { StatusCode := 200, token := "",
        body := some { user := some { ID := 1, Name := u },
                       twoStepVerificationData := some { MediaType := "Email", Ticket := "TK" },
                       errors := some [] },
        cookies := [ck] }] }

/-! ## Helper lemmas -/

/-- The first request `requestAPI` sends is the given request with the
configuration's token set when one is known. -/
theorem requestAPI_issued_head (dec : σ → j → σ) (errsOf : σ → List ErrorResponse)
    (cfg : Config) (req : Request ρ) (st : σ) (resps : List (Response j)) :
    (requestAPI dec errsOf cfg req st resps).issued.head?
      = some (if cfg.Token ≠ "" then { req with token := cfg.Token } else req) := by
  cases resps with
  | nil => rfl
  | cons r rest =>
      simp only [requestAPI]
      repeat' split
      all_goals simp

/-- The payload of the first request `requestAPI` sends is the payload it
was given (`Header.Set` only touches the token header). -/
theorem requestAPI_issued_head_body (dec : σ → j → σ) (errsOf : σ → List ErrorResponse)
    (cfg : Config) (req : Request ρ) (st : σ) (resps : List (Response j)) :
    ((requestAPI dec errsOf cfg req st resps).issued.head?.map Request.body) = some req.body := by
  rw [requestAPI_issued_head]
  split <;> rfl

/-- When the given request has no token header yet, the first request
`requestAPI` sends carries exactly the configuration's stored token. -/
theorem requestAPI_issued_head_token (dec : σ → j → σ) (errsOf : σ → List ErrorResponse)
    (cfg : Config) (req : Request ρ) (st : σ) (resps : List (Response j))
    (h : req.token = "") :
    ((requestAPI dec errsOf cfg req st resps).issued.head?.map Request.token) = some cfg.Token := by
  rw [requestAPI_issued_head]
  by_cases hc : cfg.Token = "" <;> simp [hc, h]

/-- `loginMain` forwards the lookup trace unchanged and its login trace is
exactly what `requestAPI` sent. -/
theorem loginMain_issued (c : Config) (cred : Cred) (pw : String) (env : LoginEnv)
    (lk : List (Request Int)) :
    (loginMain c cred pw env lk).lookupIssued = lk ∧
    (loginMain c cred pw env lk).loginIssued
      = (requestAPI decodeLoginResponse loginResponse.Errors c
          { token := "",
            body := { CredType := cred.ctype, CredValue := cred.Ident, Password := pw } }
          loginResponseInit env.loginResps).issued := by
  simp only [loginMain]
  repeat' split
  all_goals exact ⟨rfl, rfl⟩

/-- `getUsername` reports exactly the requests `requestAPI` sent. -/
theorem getUsername_issued (c : Config) (uid : Int)
    (resps : List (Response userResponseJson)) :
    (getUsername c uid resps).issued
      = (requestAPI decodeUserResponse userResponse.Errors c
          { token := "", body := uid } userResponseInit resps).issued := by
  simp only [getUsername]
  repeat' split
  all_goals rfl

/-- `statusCodeOfErr` looks through the message wrapping added by the
deferred error handlers. -/
theorem statusCodeOfErr_wrap (m : String) (e : Err) :
    statusCodeOfErr (.wrap m e) = statusCodeOfErr e := rfl

/-- For a single response whose decoded body carries no API errors and whose
status is outside 2XX, `requestAPI` fails with an error from which exactly
that status code is recoverable. -/
theorem requestAPI_status_error (dec : σ → j → σ) (errsOf : σ → List ErrorResponse)
    (cfg : Config) (req : Request ρ) (st : σ) (r : Response j)
    (hB : ∀ bj ∈ r.body, errsOf (dec st bj) = [])
    (hS : r.StatusCode < 200 ∨ 300 ≤ r.StatusCode) :
    ((requestAPI dec errsOf cfg req st [r]).err.bind statusCodeOfErr)
      = some r.StatusCode := by
  cases hb : r.body with
  | none =>
      simp [requestAPI, hb, ifStatus, if_pos hS, statusCodeOfErr]
  | some bj =>
      have hE : errsOf (dec st bj) = [] := hB bj (by simp [hb, Option.mem_def])
      simp [requestAPI, hb, hE, ifStatus, if_pos hS, statusCodeOfErr]

/-- The status code recoverable from a `loginMain` error is the one
recoverable from the underlying `requestAPI` error. -/
theorem loginMain_err_status (c : Config) (cred : Cred) (pw : String) (env : LoginEnv)
    (lk : List (Request Int)) :
    ((loginMain c cred pw env lk).err.bind statusCodeOfErr)
      = ((requestAPI decodeLoginResponse loginResponse.Errors c
          ({ token := "",
             body := { CredType := cred.ctype, CredValue := cred.Ident, Password := pw } }
            : Request loginRequest)
          loginResponseInit env.loginResps).err.bind statusCodeOfErr) := by
  simp only [loginMain]
  repeat' split
  all_goals simp_all [statusCodeOfErr]

/-! ### Cookie-codec helper lemmas -/

/-- Characters are determined by their code points. -/
theorem char_eq_of_toNat_eq {c d : Char} (h : c.toNat = d.toNat) : c = d := by
  have h1 := Char.ofNat_toNat c
  rw [h, Char.ofNat_toNat] at h1
  exact h1.symm

/-- A token character is not ASCII space, not a semicolon, and not an
equals sign. -/
theorem isTokenRune_facts {c : Char} (h : isTokenRune c = true) :
    isASCIISpace c = false ∧ c ≠ ';' ∧ c ≠ '=' ∧ c ≠ '\n' ∧ c ≠ '\r' := by
  simp only [isTokenRune, decide_eq_true_eq] at h
  refine ⟨?_, ?_, ?_, ?_, ?_⟩
  · simp only [isASCIISpace, decide_eq_false_iff_not]
    omega
  · intro he; subst he; exact absurd h (by decide)
  · intro he; subst he; exact absurd h (by decide)
  · intro he; subst he; exact absurd h (by decide)
  · intro he; subst he; exact absurd h (by decide)

/-- A valid cookie-value character is neither a semicolon nor a double
quote. -/
theorem validCookieValueByte_facts {c : Char} (h : validCookieValueByte c = true) :
    c ≠ ';' ∧ c ≠ dquote := by
  simp only [validCookieValueByte, decide_eq_true_eq] at h
  constructor
  · intro he; subst he; exact absurd h (by decide)
  · intro he; subst he; exact absurd h (by decide)

/-- `dropWhile` is the identity when the head does not satisfy the
predicate. -/
theorem dropWhile_head_false {p : Char → Bool} :
    ∀ {l : List Char}, (∀ c, l.head? = some c → p c = false) → l.dropWhile p = l
  | [], _ => rfl
  | a :: as, h => by
      simp [List.dropWhile_cons, h a rfl]

/-- `trimString` is the identity when neither end is ASCII space. -/
theorem trimString_eq_self {l : List Char}
    (h1 : ∀ c, l.head? = some c → isASCIISpace c = false)
    (h2 : ∀ c, l.getLast? = some c → isASCIISpace c = false) :
    trimString l = l := by
  unfold trimString
  rw [dropWhile_head_false h1]
  rw [dropWhile_head_false (fun c hc => h2 c (by rwa [List.head?_reverse] at hc))]
  exact List.reverse_reverse l

/-- `strings.Split` on ";" of a semicolon-free string is that string. -/
theorem splitSemi_of_no_semi {l : List Char} (h : ∀ c ∈ l, c ≠ ';') :
    splitSemi l = [l] := by
  induction l with
  | nil => rfl
  | cons a as ih =>
      have ha : a ≠ ';' := h a (List.mem_cons_self a as)
      have ih' := ih fun c hc => h c (List.mem_cons_of_mem a hc)
      simp [splitSemi, ha, ih']

/-- `takeWhile` consumes exactly the prefix before the first failing
character. -/
theorem takeWhile_append_cons {p : Char → Bool} {d : Char} {w : List Char} :
    ∀ {n : List Char}, (∀ c ∈ n, p c = true) → p d = false →
      (n ++ d :: w).takeWhile p = n
  | [], _, hd => by simp [List.takeWhile_cons, hd]
  | a :: as, h, hd => by
      have ha : p a = true := h a (List.mem_cons_self a as)
      have ih := takeWhile_append_cons (p := p) (d := d) (w := w)
        (fun c hc => h c (List.mem_cons_of_mem a hc)) hd
      simp [List.takeWhile_cons, ha, ih]

/-- Dropping the name and the separator leaves the value. -/
theorem drop_append_cons {d : Char} {w : List Char} :
    ∀ {n : List Char}, (n ++ d :: w).drop (n.length + 1) = w
  | [] => rfl
  | a :: as => by
      simpa using drop_append_cons (d := d) (w := w) (n := as)

/-- An all-valid value parses to itself (no quotes to strip, since a valid
value cannot contain a double quote). -/
theorem parseCookieValue_of_valid {v : List Char}
    (hv : ∀ c ∈ v, validCookieValueByte c = true) :
    parseCookieValue v = some v := by
  unfold parseCookieValue
  have hcond : ¬(1 < v.length ∧ v.head? = some dquote ∧ v.getLast? = some dquote) := by
    rintro ⟨hl, hh, -⟩
    cases v with
    | nil => simp at hl
    | cons a as =>
        simp only [List.head?_cons, Option.some.injEq] at hh
        subst hh
        exact (validCookieValueByte_facts (hv dquote (List.mem_cons_self _ _))).2 rfl
  rw [if_neg hcond, if_pos (List.all_eq_true.mpr hv)]

/-- A quoted all-valid value parses back to the unquoted value. -/
theorem parseCookieValue_quoted {v : List Char}
    (hv : ∀ c ∈ v, validCookieValueByte c = true) :
    parseCookieValue (dquote :: v ++ [dquote]) = some v := by
  unfold parseCookieValue
  have hlen : 1 < (dquote :: v ++ [dquote]).length := by
    simp [List.length_append]
  have hh : (dquote :: v ++ [dquote]).head? = some dquote := rfl
  have hl : (dquote :: v ++ [dquote]).getLast? = some dquote := by
    rw [show dquote :: v ++ [dquote] = (dquote :: v) ++ [dquote] from rfl]
    exact List.getLast?_concat _
  have hcond : 1 < (dquote :: v ++ [dquote]).length ∧
      (dquote :: v ++ [dquote]).head? = some dquote ∧
      (dquote :: v ++ [dquote]).getLast? = some dquote := ⟨hlen, hh, hl⟩
  rw [if_pos hcond]
  have hdrop : ((dquote :: v ++ [dquote]).drop 1).dropLast = v := by
    simp [List.dropLast_concat]
  rw [hdrop, if_pos (List.all_eq_true.mpr hv)]

/-- A valid cookie name is sanitized to itself. -/
theorem sanitizeCookieName_eq_self {n : List Char}
    (h : ∀ c ∈ n, isTokenRune c = true) :
    sanitizeCookieName n = n := by
  unfold sanitizeCookieName
  have : ∀ c ∈ n, (if c = '\n' ∨ c = '\r' then '-' else c) = id c := by
    intro c hc
    have hf := isTokenRune_facts (h c hc)
    simp [hf.2.2.2.1, hf.2.2.2.2]
  rw [List.map_congr_left this, List.map_id]

/-- Parsing one well-formed `name=value` line recovers the cookie. -/
theorem readSetCookieLine_wellformed {n sv v : List Char}
    (hn : isCookieNameValid n = true)
    (hnosemi : ∀ c ∈ n ++ '=' :: sv, c ≠ ';')
    (hhead : ∀ c, (n ++ '=' :: sv).head? = some c → isASCIISpace c = false)
    (hlast : ∀ c, (n ++ '=' :: sv).getLast? = some c → isASCIISpace c = false)
    (hpv : parseCookieValue sv = some v) :
    readSetCookieLine (n ++ '=' :: sv) = some { Name := n, Value := v } := by
  have hntok : ∀ c ∈ n, isTokenRune c = true := by
    have := hn
    simp only [isCookieNameValid, decide_eq_true_eq, List.all_eq_true] at this
    exact this.2
  have hnempty : n ≠ [] := by
    intro he
    simp [isCookieNameValid, he] at hn
  have hne : ∀ c ∈ n, (fun c => decide (c ≠ '=')) c = true := by
    intro c hc
    simpa using (isTokenRune_facts (hntok c hc)).2.2.1
  unfold readSetCookieLine
  rw [trimString_eq_self hhead hlast, splitSemi_of_no_semi hnosemi]
  have hlne : (n ++ '=' :: sv).isEmpty = false := by
    cases n with
    | nil => exact absurd rfl hnempty
    | cons a as => rfl
  simp only [List.isEmpty_nil, Bool.true_and, hlne, Bool.false_eq_true, if_false]
  rw [trimString_eq_self hhead hlast]
  have hname : (n ++ '=' :: sv).takeWhile (fun c => decide (c ≠ '=')) = n :=
    takeWhile_append_cons hne (by simp)
  rw [hname]
  have hlen : ¬(n.length = (n ++ '=' :: sv).length) := by
    simp [List.length_append]
  rw [if_neg hlen, drop_append_cons, hpv]
  simp [hn]

/-- One cookie with a valid name and an all-valid value survives the
write/read round trip. -/
theorem readSetCookieLine_cookieString {n v : List Char}
    (hn : isCookieNameValid n = true)
    (hv : ∀ c ∈ v, validCookieValueByte c = true) :
    readSetCookieLine (cookieString { Name := n, Value := v })
      = some { Name := n, Value := v } := by
  have hntok : ∀ c ∈ n, isTokenRune c = true := by
    have := hn
    simp only [isCookieNameValid, decide_eq_true_eq, List.all_eq_true] at this
    exact this.2
  have hnempty : n ≠ [] := by
    intro he
    simp [isCookieNameValid, he] at hn
  have hfil : v.filter validCookieValueByte = v := List.filter_eq_self.mpr hv
  have hcs : cookieString { Name := n, Value := v } = n ++ '=' :: sanitizeCookieValue v := by
    simp [cookieString, hn, sanitizeCookieName_eq_self hntok]
  -- head of the line is the first (token) character of the name
  have hhead : ∀ sv c, (n ++ '=' :: sv).head? = some c → isASCIISpace c = false := by
    intro sv c hc
    cases n with
    | nil => exact absurd rfl hnempty
    | cons a as =>
        simp only [List.cons_append, List.head?_cons, Option.some.injEq] at hc
        rw [← hc]
        exact (isTokenRune_facts (hntok a (List.mem_cons_self _ _))).1
  rw [hcs]
  -- case split on the shape of the sanitized value
  by_cases hq : ' ' ∈ v ∨ ',' ∈ v
  case pos =>
    have hvempty : v.isEmpty = false := by
      cases v with
      | nil => rcases hq with h | h <;> simp at h
      | cons a as => rfl
    have hsv : sanitizeCookieValue v = dquote :: v ++ [dquote] := by
      simp only [sanitizeCookieValue]
      rw [hfil, hvempty]
      simp only [Bool.false_eq_true, if_false]
      rw [if_pos hq]
    rw [hsv]
    apply readSetCookieLine_wellformed hn
    · intro c hc
      rcases List.mem_append.mp hc with hc | hc
      · exact (isTokenRune_facts (hntok c hc)).2.1
      · rcases List.mem_cons.mp hc with rfl | hc
        · decide
        · rcases List.mem_cons.mp hc with rfl | hc
          · decide
          · rcases List.mem_append.mp hc with hc | hc
            · exact (validCookieValueByte_facts (hv c hc)).1
            · rw [List.mem_singleton] at hc
              subst hc
              decide
    · exact hhead _
    · intro c hc
      rw [show n ++ '=' :: (dquote :: v ++ [dquote])
            = (n ++ '=' :: dquote :: v) ++ [dquote] by simp,
          List.getLast?_concat] at hc
      simp only [Option.some.injEq] at hc
      subst hc
      decide
    · exact parseCookieValue_quoted hv
  case neg =>
    have hsv : sanitizeCookieValue v = v := by
      simp only [sanitizeCookieValue]
      rw [hfil]
      by_cases hve : v.isEmpty = true
      · rw [if_pos hve]
      · rw [if_neg hve, if_neg hq]
    -- in the unquoted case, values contain no spaces at all
    rw [hsv]
    push_neg at hq
    have hvns : ∀ c ∈ v, isASCIISpace c = false := by
      intro c hc
      have hval := hv c hc
      simp only [validCookieValueByte, decide_eq_true_eq] at hval
      have hcs32 : c.toNat ≠ 32 := by
        intro h32
        have hce : c = ' ' := char_eq_of_toNat_eq (d := ' ') (by rw [h32]; rfl)
        exact hq.1 (hce ▸ hc)
      simp only [isASCIISpace, decide_eq_false_iff_not]
      omega
    apply readSetCookieLine_wellformed hn
    · intro c hc
      rcases List.mem_append.mp hc with hc | hc
      · exact (isTokenRune_facts (hntok c hc)).2.1
      · rcases List.mem_cons.mp hc with rfl | hc
        · decide
        · exact (validCookieValueByte_facts (hv c hc)).1
    · exact hhead _
    · intro c hc
      have hmem : c ∈ n ++ '=' :: v := by
        have := List.mem_of_mem_getLast? (l := n ++ '=' :: v) (a := c)
        exact this (by rw [hc]; rfl)
      rcases List.mem_append.mp hmem with hm | hm
      · exact (isTokenRune_facts (hntok c hm)).1
      · rcases List.mem_cons.mp hm with rfl | hm
        · decide
        · exact hvns c hm
    · exact parseCookieValue_of_valid hv

/-! ## Claims -/

/-- C9: for every code string and remember flag, `Step.Verify` leaves the
step state it enumerates — the pending request (username, ticket,
actionType, and the stored code/remember fields) and `MediaType` —
unchanged whether the call succeeds or fails: the request body is built
from a copy of the stored request, and the step is only ever rebuilt with a
new configuration. -/
theorem verify_preserves_step_state (s : Step) (code : String) (remember : Bool)
    (resps : List (Response errorsResponseJson)) :
    (s.Verify code remember resps).step.req = s.req ∧
      (s.Verify code remember resps).step.MediaType = s.MediaType := by
  simp only [Step.Verify]
  repeat' split
  all_goals exact ⟨rfl, rfl⟩

/-- C5: `Step.Resend` overwrites both the ticket and `MediaType` exactly on
success: when it returns no error (and a response was available), both
fields come from the decoded response — in particular, for a single
successful response carrying `mediaType`/`ticket`, they take those wire
values; on any failure the step's ticket and `MediaType` are unchanged. -/
theorem resend_mutates_ticket_media_only_on_success (s : Step)
    (resps : List (Response resendResponseJson)) :
    ((s.Resend resps).err = none ∧ (s.Resend resps).pending = false →
       (s.Resend resps).step.MediaType = (s.Resend resps).apiResp.MediaType ∧
       (s.Resend resps).step.req.ticketRequest.Ticket = (s.Resend resps).apiResp.Ticket)
    ∧ ((s.Resend resps).err ≠ none ∨ (s.Resend resps).pending = true →
       (s.Resend resps).step.MediaType = s.MediaType ∧
       (s.Resend resps).step.req = s.req)
    ∧ (∀ (r1 : Response resendResponseJson) (bj : resendResponseJson) (mt tk : String),
       r1.body = some bj → bj.mediaType = some mt → bj.ticket = some tk →
       bj.errors.getD [] = [] → 200 ≤ r1.StatusCode → r1.StatusCode < 300 →
       (s.Resend [r1]).err = none ∧
       (s.Resend [r1]).step.MediaType = mt ∧
       (s.Resend [r1]).step.req.ticketRequest.Ticket = tk) := by
  refine ⟨?_, ?_, ?_⟩
  · simp only [Step.Resend]
    repeat' split
    all_goals simp_all
  · simp only [Step.Resend]
    repeat' split
    all_goals simp_all
  · intro r1 bj mt tk hb hmt htk he hs1 hs2
    simp only [Step.Resend, requestAPI, hb]
    have hE : (decodeResendResponse resendResponseInit bj).Errors = [] := by
      simp [decodeResendResponse, resendResponseInit, he]
    have hS : ifStatus r1.StatusCode none = none := by
      simp only [ifStatus]
      rw [if_neg]; omega
    simp [hE, hS, he, decodeResendResponse, resendResponseInit, hmt, htk]

/-- Witness for C5: a successful resend against a stub returning
`{mediaType:"SMS", ticket:"T2"}` updates both fields; a failing resend
leaves the ticket and `MediaType` unchanged. -/
theorem resend_mutates_ticket_media_only_on_success_witness :
    ((stepExample.Resend [resendOkResp]).err = none ∧
     (stepExample.Resend [resendOkResp]).step.MediaType = "SMS" ∧
     (stepExample.Resend [resendOkResp]).step.req.ticketRequest.Ticket = "T2")
    ∧ ((stepExample.Resend [resendErrResp]).step.MediaType = stepExample.MediaType ∧
       (stepExample.Resend [resendErrResp]).step.req = stepExample.req) := by
  constructor
  · exact (resend_mutates_ticket_media_only_on_success stepExample [resendOkResp]).2.2
      resendOkResp { mediaType := some "SMS", ticket := some "T2", errors := some [] }
      "SMS" "T2" rfl rfl rfl rfl (by decide) (by decide)
  · exact (resend_mutates_ticket_media_only_on_success stepExample [resendErrResp]).2.1
      (by decide)

/-- The Username credential type does not lowercase to "userid". -/
theorem lowerAscii_Username_ne : lowerAscii "Username" ≠ "userid" := by decide

/-- C1 (counterexample): against an endpoint that answers every request
with a 403 carrying a code-0 API error but *no* fresh token header, and a
configuration with no token yet, `Login` does not stop after two attempts:
given three such responses it consumes all of them and would issue a
fourth request — the retry guard `req.Header.Get(tokenHeader) == ""`
stays true forever, so the claimed two-attempt bound fails and `requestAPI`
loops. -/
theorem login_retry_issues_third_request :
    (Login { Token := "" } "u" "pw"
        { lookupResps := [],
          loginResps := [tokenFailNoToken, tokenFailNoToken, tokenFailNoToken] }).pending = true
    ∧ (Login { Token := "" } "u" "pw"
        { lookupResps := [],
          loginResps := [tokenFailNoToken, tokenFailNoToken, tokenFailNoToken] }).loginIssued.length
        = 4 := by
  decide

/-- C1 (amended): against an endpoint whose responses are all 403 with a
code-0 first API error *and a non-empty fresh token header*, `Login`
terminates and fails after exactly two attempts (the original request plus
one automatic retry) when the configuration's token starts empty, and
after exactly one attempt when a token was already known; it never issues
a third request. -/
theorem login_retry_bound (cfg : Config) (u pw : String)
    (r1 r2 : Response loginResponseJson) (rest : List (Response loginResponseJson))
    (bj1 bj2 : loginResponseJson) (e1 e2 : ErrorResponse) (es1 es2 : List ErrorResponse)
    (h1s : r1.StatusCode = 403) (h1t : r1.token ≠ "")
    (h1b : r1.body = some bj1) (h1e : bj1.errors = some (e1 :: es1)) (h1c : e1.Code = 0)
    (h2s : r2.StatusCode = 403)
    (h2b : r2.body = some bj2) (h2e : bj2.errors = some (e2 :: es2)) (h2c : e2.Code = 0) :
    (Login cfg u pw { lookupResps := [], loginResps := r1 :: r2 :: rest }).loginIssued.length
        = (if cfg.Token = "" then 2 else 1)
    ∧ (Login cfg u pw { lookupResps := [], loginResps := r1 :: r2 :: rest }).pending = false
    ∧ (Login cfg u pw { lookupResps := [], loginResps := r1 :: r2 :: rest }).err.isSome = true := by
  have h403 : ifStatus 403 (some (Err.errorsResponse (e2 :: es2)))
      = some (.statusErrorOf 403 (.errorsResponse (e2 :: es2))) := by
    simp [ifStatus]
  have h403' : ifStatus 403 (some (Err.errorsResponse (e1 :: es1)))
      = some (.statusErrorOf 403 (.errorsResponse (e1 :: es1))) := by
    simp [ifStatus]
  by_cases hc : cfg.Token = ""
  · simp [Login, LoginCred, lowerAscii_Username_ne, loginMain, requestAPI,
      decodeLoginResponse, loginResponseInit, h1b, h1e, h1c, h1s, h1t, hc,
      h2b, h2e, h2c, h2s, h403]
  · simp [Login, LoginCred, lowerAscii_Username_ne, loginMain, requestAPI,
      decodeLoginResponse, loginResponseInit, h1b, h1e, h1c, h1s, hc, h403']

/-- Witness for C1 (amended) at a concrete endpoint that 403s with code 0
and a fresh token on every call: two attempts from an empty token, one
attempt from a primed token. -/
theorem login_retry_bound_witness :
    ((Login { Token := "" } "u" "pw"
        { lookupResps := [],
          loginResps := [tokenFailWithToken "T1", tokenFailWithToken "T2"] }).loginIssued.length = 2
     ∧ (Login { Token := "" } "u" "pw"
        { lookupResps := [],
          loginResps := [tokenFailWithToken "T1", tokenFailWithToken "T2"] }).pending = false
     ∧ (Login { Token := "" } "u" "pw"
        { lookupResps := [],
          loginResps := [tokenFailWithToken "T1", tokenFailWithToken "T2"] }).err.isSome = true)
    ∧ ((Login { Token := "X" } "u" "pw"
        { lookupResps := [],
          loginResps := [tokenFailWithToken "T1", tokenFailWithToken "T2"] }).loginIssued.length = 1
     ∧ (Login { Token := "X" } "u" "pw"
        { lookupResps := [],
          loginResps := [tokenFailWithToken "T1", tokenFailWithToken "T2"] }).pending = false
     ∧ (Login { Token := "X" } "u" "pw"
        { lookupResps := [],
          loginResps := [tokenFailWithToken "T1", tokenFailWithToken "T2"] }).err.isSome = true) := by
  constructor
  · have h := login_retry_bound { Token := "" } "u" "pw"
      (tokenFailWithToken "T1") (tokenFailWithToken "T2") []
      { errors := some [{ Code := 0, Message := "Token Validation Failed", Field := "" }] }
      { errors := some [{ Code := 0, Message := "Token Validation Failed", Field := "" }] }
      { Code := 0, Message := "Token Validation Failed", Field := "" }
      { Code := 0, Message := "Token Validation Failed", Field := "" } [] []
      rfl (by decide) rfl rfl rfl rfl rfl rfl rfl
    simpa using h
  · have h := login_retry_bound { Token := "X" } "u" "pw"
      (tokenFailWithToken "T1") (tokenFailWithToken "T2") []
      { errors := some [{ Code := 0, Message := "Token Validation Failed", Field := "" }] }
      { errors := some [{ Code := 0, Message := "Token Validation Failed", Field := "" }] }
      { Code := 0, Message := "Token Validation Failed", Field := "" }
      { Code := 0, Message := "Token Validation Failed", Field := "" } [] []
      rfl (by decide) rfl rfl rfl rfl rfl rfl rfl
    simpa using h

/-- C2 (counterexample): a login response that contains
`twoStepVerificationData` does *not* come back with "no session cookies":
`LoginCred` returns the response's cookies *alongside* the Verification
Step (part_000 line 203 `return resp.Cookies(), step, nil`; the function's
own doc comment says the Step is returned "additionally"). -/
theorem login_twoStep_returns_cookies_too :
    ((Login { Token := "" } "u" "pw"
        { lookupResps := [], loginResps := [login2SVSuccess] }).step.isSome = true)
    ∧ (Login { Token := "" } "u" "pw"
        { lookupResps := [], loginResps := [login2SVSuccess] }).cookies
        = [{ Name := ['s'], Value := ['v'] }]
    ∧ ([{ Name := ['s'], Value := ['v'] }] : List Cookie) ≠ [] := by
  decide

/-- C2 (amended): for a login response with a 2XX status and no API errors:
if it contains `twoStepVerificationData` (together with the `user` object
from which the step's username is read), `LoginCred` returns a Verification
Step whose `MediaType` and ticket equal the response's, *together with* the
response's cookies; if it contains no `twoStepVerificationData`, `LoginCred`
returns the response's cookies and no Step. -/
theorem login_twoStep_branching (c : Config) (cred : Cred) (pw : String)
    (r1 : Response loginResponseJson) (bj : loginResponseJson)
    (hty : lowerAscii cred.ctype ≠ "userid")
    (hb : r1.body = some bj) (he : bj.errors.getD [] = [])
    (hs1 : 200 ≤ r1.StatusCode) (hs2 : r1.StatusCode < 300) :
    (∀ tsd u, bj.twoStepVerificationData = some tsd → bj.user = some u →
       (LoginCred c cred pw { lookupResps := [], loginResps := [r1] }).err = none ∧
       (LoginCred c cred pw { lookupResps := [], loginResps := [r1] }).cookies = r1.cookies ∧
       ∃ st, (LoginCred c cred pw { lookupResps := [], loginResps := [r1] }).step = some st ∧
         st.MediaType = tsd.MediaType ∧ st.req.ticketRequest.Ticket = tsd.Ticket)
    ∧ (bj.twoStepVerificationData = none →
       (LoginCred c cred pw { lookupResps := [], loginResps := [r1] }).err = none ∧
       (LoginCred c cred pw { lookupResps := [], loginResps := [r1] }).step = none ∧
       (LoginCred c cred pw { lookupResps := [], loginResps := [r1] }).cookies = r1.cookies) := by
  have hS : ifStatus r1.StatusCode none = none := by
    simp only [ifStatus]
    rw [if_neg]; omega
  constructor
  · intro tsd u htsd hu
    simp [LoginCred, hty, loginMain, requestAPI, decodeLoginResponse, loginResponseInit,
      hb, he, hS, htsd, hu]
  · intro htsd
    simp [LoginCred, hty, loginMain, requestAPI, decodeLoginResponse, loginResponseInit,
      hb, he, hS, htsd]

/-- Witness for C2 (amended): the two-step branch at a concrete 2SV
response, and the plain branch at a concrete cookie-bearing success. -/
theorem login_twoStep_branching_witness :
    ((LoginCred { Token := "" } { ctype := "Username", Ident := "u" } "pw"
        { lookupResps := [], loginResps := [login2SVSuccess] }).err = none ∧
     (LoginCred { Token := "" } { ctype := "Username", Ident := "u" } "pw"
        { lookupResps := [], loginResps := [login2SVSuccess] }).cookies = login2SVSuccess.cookies ∧
     ∃ st, (LoginCred { Token := "" } { ctype := "Username", Ident := "u" } "pw"
        { lookupResps := [], loginResps := [login2SVSuccess] }).step = some st ∧
       st.MediaType = "Email" ∧ st.req.ticketRequest.Ticket = "TK")
    ∧ ((LoginCred { Token := "" } { ctype := "Username", Ident := "u" } "pw"
        { lookupResps := [], loginResps := [loginPlainSuccess] }).err = none ∧
       (LoginCred { Token := "" } { ctype := "Username", Ident := "u" } "pw"
        { lookupResps := [], loginResps := [loginPlainSuccess] }).step = none ∧
       (LoginCred { Token := "" } { ctype := "Username", Ident := "u" } "pw"
        { lookupResps := [], loginResps := [loginPlainSuccess] }).cookies
         = loginPlainSuccess.cookies) := by
  constructor
  · exact (login_twoStep_branching { Token := "" } { ctype := "Username", Ident := "u" } "pw"
      login2SVSuccess
      { user := some { ID := 1, Name := "alice" },
        twoStepVerificationData := some { MediaType := "Email", Ticket := "TK" },
        errors := some [] }
      (by decide) rfl rfl (by decide) (by decide)).1
      { MediaType := "Email", Ticket := "TK" } { ID := 1, Name := "alice" } rfl rfl
  · exact (login_twoStep_branching { Token := "" } { ctype := "Username", Ident := "u" } "pw"
      loginPlainSuccess
      { user := none, twoStepVerificationData := none, errors := some [] }
      (by decide) rfl rfl (by decide) (by decide)).2 rfl

/-- C3 (counterexample): `Login` succeeds against an endpoint that 403s
with code 0 once (carrying fresh token "T1") and then succeeds, and the
token "T1" is learned *inside* the call — but the caller's configuration
does not hold it afterwards: `Config.LoginCred` has a value receiver, so
the caller's configuration is the unchanged `{Token := ""}`, not "T1". -/
theorem login_caller_config_not_updated :
    (Login { Token := "" } "u" "pw"
        { lookupResps := [], loginResps := [tokenFailWithToken "T1", loginPlainSuccess] }).err
      = none
    ∧ (Login { Token := "" } "u" "pw"
        { lookupResps := [], loginResps := [tokenFailWithToken "T1", loginPlainSuccess] }).internalCfg.Token
      = "T1"
    ∧ loginCredCallerCfgAfter { Token := "" } { ctype := "Username", Ident := "u" } "pw"
        { lookupResps := [], loginResps := [tokenFailWithToken "T1", loginPlainSuccess] }
      = { Token := "" }
    ∧ (loginCredCallerCfgAfter { Token := "" } { ctype := "Username", Ident := "u" } "pw"
        { lookupResps := [], loginResps := [tokenFailWithToken "T1", loginPlainSuccess] }).Token
      ≠ "T1" := by
  decide

/-- C3 (amended): the token learned from the first (403) response is
threaded through the rest of the same call — the second request carries it,
and both the internal configuration at return and any returned Step's
private configuration hold it — but the *caller's* configuration is left
unchanged by `Login`, because `LoginCred` receives the configuration by
value. -/
theorem login_token_threading (t u pw : String) (ck : Cookie) (ht : t ≠ "") :
    (Login { Token := "" } u pw (retryThen2SV t u ck)).err = none
    ∧ (Login { Token := "" } u pw (retryThen2SV t u ck)).loginIssued.map Request.token = ["", t]
    ∧ (∃ st, (Login { Token := "" } u pw (retryThen2SV t u ck)).step = some st ∧ st.cfg.Token = t)
    ∧ (Login { Token := "" } u pw (retryThen2SV t u ck)).internalCfg.Token = t
    ∧ loginCredCallerCfgAfter { Token := "" } { ctype := "Username", Ident := u } pw
        (retryThen2SV t u ck) = { Token := "" } := by
  have hS : ifStatus 200 none = none := by
    simp only [ifStatus]
    rw [if_neg]; omega
  simp [Login, LoginCred, lowerAscii_Username_ne, loginMain, requestAPI, retryThen2SV,
    tokenFailWithToken, decodeLoginResponse, loginResponseInit, hS, ht,
    loginCredCallerCfgAfter]

/-- Witness for C3 (amended) at token "T1". -/
theorem login_token_threading_witness :
    (Login { Token := "" } "u" "pw" (retryThen2SV "T1" "u" { Name := ['s'], Value := ['v'] })).err
      = none
    ∧ (Login { Token := "" } "u" "pw"
        (retryThen2SV "T1" "u" { Name := ['s'], Value := ['v'] })).loginIssued.map Request.token
      = ["", "T1"]
    ∧ (∃ st, (Login { Token := "" } "u" "pw"
        (retryThen2SV "T1" "u" { Name := ['s'], Value := ['v'] })).step = some st ∧
        st.cfg.Token = "T1")
    ∧ (Login { Token := "" } "u" "pw"
        (retryThen2SV "T1" "u" { Name := ['s'], Value := ['v'] })).internalCfg.Token = "T1"
    ∧ loginCredCallerCfgAfter { Token := "" } { ctype := "Username", Ident := "u" } "pw"
        (retryThen2SV "T1" "u" { Name := ['s'], Value := ['v'] }) = { Token := "" } :=
  login_token_threading "T1" "u" "pw" { Name := ['s'], Value := ['v'] } (by decide)

/-- C4: a UserID credential whose identifier is not a 64-bit integer makes
`LoginCred` fail with the parse error (the model's InvalidArgument) before
any request is issued; one that parses and whose lookup succeeds is
rewritten so that the login endpoint receives a Username credential with
the looked-up name; credentials of any other kind are forwarded to the
login endpoint unchanged. -/
theorem login_userID_resolution (c : Config) (cred : Cred) (pw : String) (env : LoginEnv) :
    (cred.ctype = "UserID" → parseInt64 cred.Ident = none →
       (LoginCred c cred pw env).err
         = some (.wrap "login" (.wrap "parse user ID" (.parseIntError cred.Ident)))
       ∧ (LoginCred c cred pw env).lookupIssued = []
       ∧ (LoginCred c cred pw env).loginIssued = [])
    ∧ (cred.ctype = "UserID" → ∀ uid, parseInt64 cred.Ident = some uid →
       (getUsername c uid env.lookupResps).err = none →
       (getUsername c uid env.lookupResps).pending = false →
       (LoginCred c cred pw env).lookupIssued = (getUsername c uid env.lookupResps).issued
       ∧ ((getUsername c uid env.lookupResps).issued.head?.map Request.body) = some uid
       ∧ ((LoginCred c cred pw env).loginIssued.head?.map Request.body)
           = some { CredType := "Username",
                    CredValue := (getUsername c uid env.lookupResps).name, Password := pw })
    ∧ (lowerAscii cred.ctype ≠ "userid" →
       (LoginCred c cred pw env).lookupIssued = []
       ∧ ((LoginCred c cred pw env).loginIssued.head?.map Request.body)
           = some { CredType := cred.ctype, CredValue := cred.Ident, Password := pw }) := by
  refine ⟨?_, ?_, ?_⟩
  · intro hty hp
    have hl : lowerAscii cred.ctype = "userid" := by rw [hty]; decide
    simp [LoginCred, hl, hp]
  · intro hty uid hp hge hgp
    have hl : lowerAscii cred.ctype = "userid" := by rw [hty]; decide
    simp only [LoginCred, hl, if_pos, hp, hge, hgp]
    simp only [Bool.false_eq_true, if_false]
    refine ⟨(loginMain_issued c _ pw env _).1, ?_, ?_⟩
    · rw [getUsername_issued, requestAPI_issued_head_body]
    · rw [(loginMain_issued c _ pw env _).2, requestAPI_issued_head_body]
  · intro hty
    simp only [LoginCred, if_neg hty]
    refine ⟨(loginMain_issued c cred pw env []).1, ?_⟩
    rw [(loginMain_issued c cred pw env []).2, requestAPI_issued_head_body]

/-- Witness for C4: a non-numeric UserID fails without any request; UserID
"123" against a stub lookup returning "alice" sends a Username/"alice"
login request; an Email credential passes through unchanged. -/
theorem login_userID_resolution_witness :
    ((LoginCred { Token := "" } { ctype := "UserID", Ident := "12x" } "pw"
        { lookupResps := [], loginResps := [] }).err
       = some (.wrap "login" (.wrap "parse user ID" (.parseIntError "12x")))
     ∧ (LoginCred { Token := "" } { ctype := "UserID", Ident := "12x" } "pw"
        { lookupResps := [], loginResps := [] }).lookupIssued = []
     ∧ (LoginCred { Token := "" } { ctype := "UserID", Ident := "12x" } "pw"
        { lookupResps := [], loginResps := [] }).loginIssued = [])
    ∧ ((LoginCred { Token := "" } { ctype := "UserID", Ident := "123" } "pw"
        { lookupResps := [lookupAlice], loginResps := [loginPlainSuccess] }).loginIssued.head?.map
          Request.body
       = some { CredType := "Username", CredValue := "alice", Password := "pw" })
    ∧ ((LoginCred { Token := "" } { ctype := "Email", Ident := "e@x" } "pw"
        { lookupResps := [], loginResps := [loginPlainSuccess] }).loginIssued.head?.map
          Request.body
       = some { CredType := "Email", CredValue := "e@x", Password := "pw" }) := by
  refine ⟨?_, ?_, ?_⟩
  · exact (login_userID_resolution { Token := "" } { ctype := "UserID", Ident := "12x" } "pw"
      { lookupResps := [], loginResps := [] }).1 rfl (by decide)
  · have h := (login_userID_resolution { Token := "" } { ctype := "UserID", Ident := "123" } "pw"
      { lookupResps := [lookupAlice], loginResps := [loginPlainSuccess] }).2.1 rfl 123
      (by decide) (by decide) (by decide)
    have hname : (getUsername { Token := "" } 123 [lookupAlice]).name = "alice" := by decide
    simpa [hname] using h.2.2
  · exact ((login_userID_resolution { Token := "" } { ctype := "Email", Ident := "e@x" } "pw"
      { lookupResps := [], loginResps := [loginPlainSuccess] }).2.2 (by decide)).2

/-- C10: `LoginCred` matches the UserID credential kind case-insensitively —
any capitalization whose ASCII lowercase form is "userid" takes the
parse-and-resolve path (behaving exactly as the canonical "UserID" kind
does), while every other type string is forwarded to the login endpoint
unchanged rather than rejected. -/
theorem loginCred_userid_case_insensitive (c : Config) (cred : Cred) (pw : String)
    (env : LoginEnv) :
    (lowerAscii cred.ctype = "userid" →
       LoginCred c cred pw env = LoginCred c { ctype := "UserID", Ident := cred.Ident } pw env)
    ∧ (lowerAscii cred.ctype ≠ "userid" →
       ((LoginCred c cred pw env).loginIssued.head?.map Request.body)
         = some { CredType := cred.ctype, CredValue := cred.Ident, Password := pw }) := by
  constructor
  · intro h
    simp [LoginCred, h, show lowerAscii "UserID" = "userid" from by decide]
  · intro h
    simp only [LoginCred, if_neg h]
    rw [(loginMain_issued c cred pw env []).2, requestAPI_issued_head_body]

/-- Witness for C10: "USERID" behaves exactly as "UserID", and "Email" is
forwarded unchanged. -/
theorem loginCred_userid_case_insensitive_witness :
    (LoginCred { Token := "" } { ctype := "USERID", Ident := "12x" } "pw"
        { lookupResps := [], loginResps := [] }
      = LoginCred { Token := "" } { ctype := "UserID", Ident := "12x" } "pw"
        { lookupResps := [], loginResps := [] })
    ∧ ((LoginCred { Token := "" } { ctype := "Email", Ident := "e@x" } "pw"
        { lookupResps := [], loginResps := [loginPlainSuccess] }).loginIssued.head?.map
          Request.body
       = some { CredType := "Email", CredValue := "e@x", Password := "pw" }) := by
  constructor
  · exact (loginCred_userid_case_insensitive { Token := "" }
      { ctype := "USERID", Ident := "12x" } "pw"
      { lookupResps := [], loginResps := [] }).1 (by decide)
  · exact (loginCred_userid_case_insensitive { Token := "" }
      { ctype := "Email", Ident := "e@x" } "pw"
      { lookupResps := [], loginResps := [loginPlainSuccess] }).2 (by decide)

/-- C7 (counterexample): the identity lookup does *not* leave the token
header off: `getUsername` goes through `requestAPI`, which sets the
`X-CSRF-TOKEN` header whenever a token is stored, so with stored token "T"
the lookup request carries "T". -/
theorem getUsername_sends_token_header :
    (getUsername { Token := "T" } 123 [lookupAlice]).issued.map Request.token = ["T"]
    ∧ ("T" : String) ≠ ""
    ∧ (getUsername { Token := "T" } 123 [lookupAlice]).err = none := by
  decide

/-- C7 (amended): the lookup request carries the configuration's stored
token like every `requestAPI` request; however, the token store the caller
sees is untouched by a lookup — `getUsername` receives the configuration by
value, so even inside `LoginCred` the login request that follows an
internal lookup carries the caller's original token, whatever tokens the
lookup responses carried. -/
theorem lookup_token_isolation :
    (∀ (c : Config) (uid : Int) (resps : List (Response userResponseJson)),
       ((getUsername c uid resps).issued.head?.map Request.token) = some c.Token)
    ∧ (∀ (c : Config) (cred : Cred) (pw : String) (env : LoginEnv) (uid : Int),
       lowerAscii cred.ctype = "userid" → parseInt64 cred.Ident = some uid →
       (getUsername c uid env.lookupResps).err = none →
       (getUsername c uid env.lookupResps).pending = false →
       ((LoginCred c cred pw env).loginIssued.head?.map Request.token) = some c.Token) := by
  constructor
  · intro c uid resps
    rw [getUsername_issued, requestAPI_issued_head_token]
    rfl
  · intro c cred pw env uid hl hp hge hgp
    simp only [LoginCred, hl, if_pos, hp, hge, hgp]
    simp only [Bool.false_eq_true, if_false]
    rw [(loginMain_issued c _ pw env _).2, requestAPI_issued_head_token]
    rfl

/-- Witness for C7 (amended): with stored token "T1" the lookup request
carries "T1"; and after a lookup whose response rotates the token to "T2",
the login request still carries the caller's "T1". -/
theorem lookup_token_isolation_witness :
    ((getUsername { Token := "T1" } 5 []).issued.head?.map Request.token = some "T1")
    ∧ ((LoginCred { Token := "T1" } { ctype := "UserID", Ident := "123" } "pw"
        { lookupResps := [lookupAliceWithToken], loginResps := [] }).loginIssued.head?.map
          Request.token
       = some "T1") := by
  constructor
  · exact lookup_token_isolation.1 { Token := "T1" } 5 []
  · exact lookup_token_isolation.2 { Token := "T1" } { ctype := "UserID", Ident := "123" } "pw"
      { lookupResps := [lookupAliceWithToken], loginResps := [] } 123
      (by decide) (by decide) (by decide) (by decide)

/-- C6: for a response whose status code lies outside 200-299 and whose
body carries no API errors (including bodies that fail to decode), every
operation — login, logout, verify, resend, identity lookup — fails with an
error from which exactly that numeric status code is recoverable; and a
status code within 200-299 never wraps anything in a status error
(`ifStatus` is the only constructor of status errors and is the identity
there). -/
theorem status_error_taxonomy :
    (∀ (c : Config) (u pw : String) (r : Response loginResponseJson),
       (∀ bj ∈ r.body, bj.errors.getD [] = []) →
       (r.StatusCode < 200 ∨ 300 ≤ r.StatusCode) →
       ((Login c u pw { lookupResps := [], loginResps := [r] }).err.bind statusCodeOfErr)
         = some r.StatusCode)
    ∧ (∀ (c : Config) (cks : List Cookie) (r : Response errorsResponseJson),
       (∀ bj ∈ r.body, bj.errors.getD [] = []) →
       (r.StatusCode < 200 ∨ 300 ≤ r.StatusCode) →
       ((Logout c cks [r]).err.bind statusCodeOfErr) = some r.StatusCode)
    ∧ (∀ (s : Step) (code : String) (rem : Bool) (r : Response errorsResponseJson),
       (∀ bj ∈ r.body, bj.errors.getD [] = []) →
       (r.StatusCode < 200 ∨ 300 ≤ r.StatusCode) →
       ((s.Verify code rem [r]).err.bind statusCodeOfErr) = some r.StatusCode)
    ∧ (∀ (s : Step) (r : Response resendResponseJson),
       (∀ bj ∈ r.body, bj.errors.getD [] = []) →
       (r.StatusCode < 200 ∨ 300 ≤ r.StatusCode) →
       ((s.Resend [r]).err.bind statusCodeOfErr) = some r.StatusCode)
    ∧ (∀ (c : Config) (uid : Int) (r : Response userResponseJson),
       (∀ bj ∈ r.body, bj.errors.getD [] = []) →
       (r.StatusCode < 200 ∨ 300 ≤ r.StatusCode) →
       ((getUsername c uid [r]).err.bind statusCodeOfErr) = some r.StatusCode)
    ∧ (∀ (code : Int) (e : Option Err), 200 ≤ code → code < 300 →
       ifStatus code e = e) := by
  refine ⟨?_, ?_, ?_, ?_, ?_, ?_⟩
  · intro c u pw r hB hS
    have hB' : ∀ bj ∈ r.body, (decodeLoginResponse loginResponseInit bj).Errors = [] := by
      intro bj hbj
      simpa [decodeLoginResponse, loginResponseInit] using hB bj hbj
    have h := requestAPI_status_error decodeLoginResponse loginResponse.Errors c
      ({ token := "", body := { CredType := "Username", CredValue := u, Password := pw } }
        : Request loginRequest) loginResponseInit r hB' hS
    simp only [Login, LoginCred]
    rw [if_neg (by simpa using lowerAscii_Username_ne)]
    rw [loginMain_err_status]
    exact h
  · intro c cks r hB hS
    have hB' : ∀ bj ∈ r.body, (decodeErrorsResponse errorsResponseInit bj).Errors = [] := by
      intro bj hbj
      simpa [decodeErrorsResponse, errorsResponseInit] using hB bj hbj
    have h := requestAPI_status_error decodeErrorsResponse errorsResponse.Errors c
      ({ token := "", body := cks } : Request (List Cookie)) errorsResponseInit r hB' hS
    simp only [Logout]
    cases he : (requestAPI decodeErrorsResponse errorsResponse.Errors c
        { token := "", body := cks } errorsResponseInit [r]).err with
    | none => rw [he] at h; simp at h
    | some e =>
        rw [he] at h; simp at h
        simp [he, statusCodeOfErr, h]
  · intro s code rem r hB hS
    have hB' : ∀ bj ∈ r.body, (decodeErrorsResponse errorsResponseInit bj).Errors = [] := by
      intro bj hbj
      simpa [decodeErrorsResponse, errorsResponseInit] using hB bj hbj
    have h := requestAPI_status_error decodeErrorsResponse errorsResponse.Errors s.cfg
      ({ token := "", body := { s.req with Code := code, RememberDevice := rem } }
        : Request twoStepVerificationVerifyRequest) errorsResponseInit r hB' hS
    simp only [Step.Verify]
    cases he : (requestAPI decodeErrorsResponse errorsResponse.Errors s.cfg
        { token := "", body := { s.req with Code := code, RememberDevice := rem } }
        errorsResponseInit [r]).err with
    | none => rw [he] at h; simp at h
    | some e =>
        rw [he] at h; simp at h
        simp [he, statusCodeOfErr, h]
  · intro s r hB hS
    have hB' : ∀ bj ∈ r.body, (decodeResendResponse resendResponseInit bj).Errors = [] := by
      intro bj hbj
      simpa [decodeResendResponse, resendResponseInit] using hB bj hbj
    have h := requestAPI_status_error decodeResendResponse resendResponse.Errors s.cfg
      ({ token := "", body := s.req.ticketRequest }
        : Request twoStepVerificationTicketRequest) resendResponseInit r hB' hS
    simp only [Step.Resend]
    cases he : (requestAPI decodeResendResponse resendResponse.Errors s.cfg
        { token := "", body := s.req.ticketRequest } resendResponseInit [r]).err with
    | none => rw [he] at h; simp at h
    | some e =>
        rw [he] at h; simp at h
        simp [he, statusCodeOfErr, h]
  · intro c uid r hB hS
    have hB' : ∀ bj ∈ r.body, (decodeUserResponse userResponseInit bj).Errors = [] := by
      intro bj hbj
      simpa [decodeUserResponse, userResponseInit] using hB bj hbj
    have h := requestAPI_status_error decodeUserResponse userResponse.Errors c
      ({ token := "", body := uid } : Request Int) userResponseInit r hB' hS
    simp only [getUsername]
    cases he : (requestAPI decodeUserResponse userResponse.Errors c
        { token := "", body := uid } userResponseInit [r]).err with
    | none => rw [he] at h; simp at h
    | some e =>
        rw [he] at h; simp at h
        simp [he, statusCodeOfErr, h]
  · intro code e h1 h2
    simp only [ifStatus]
    rw [if_neg]
    omega

/-- Witness for C6: a 404 with an undecodable body at login, 404/500s with
empty error bodies at the other operations, and a 204 passing through
`ifStatus` untouched. -/
theorem status_error_taxonomy_witness :
    ((Login { Token := "" } "u" "pw"
        { lookupResps := [],
          loginResps := [{ StatusCode := 404, token := "", body := none, cookies := [] }] }).err.bind
        statusCodeOfErr = some 404)
    ∧ ((Logout { Token := "" } []
        [{ StatusCode := 404, token := "", body := some { errors := none }, cookies := [] }]).err.bind
        statusCodeOfErr = some 404)
    ∧ ((stepExample.Verify "c" false
        [{ StatusCode := 500, token := "", body := some { errors := none }, cookies := [] }]).err.bind
        statusCodeOfErr = some 500)
    ∧ ((stepExample.Resend
        [{ StatusCode := 404, token := "",
           body := some { mediaType := none, ticket := none, errors := none },
           cookies := [] }]).err.bind statusCodeOfErr = some 404)
    ∧ ((getUsername { Token := "" } 7
        [{ StatusCode := 404, token := "", body := some { Username := none, errors := none },
           cookies := [] }]).err.bind statusCodeOfErr = some 404)
    ∧ ifStatus 204 (some .jsonDecode) = some .jsonDecode := by
  refine ⟨?_, ?_, ?_, ?_, ?_, ?_⟩
  · exact status_error_taxonomy.1 { Token := "" } "u" "pw"
      { StatusCode := 404, token := "", body := none, cookies := [] }
      (by simp) (by decide)
  · exact status_error_taxonomy.2.1 { Token := "" } []
      { StatusCode := 404, token := "", body := some { errors := none }, cookies := [] }
      (by simp [Option.mem_def]) (by decide)
  · exact status_error_taxonomy.2.2.1 stepExample "c" false
      { StatusCode := 500, token := "", body := some { errors := none }, cookies := [] }
      (by simp [Option.mem_def]) (by decide)
  · exact status_error_taxonomy.2.2.2.1 stepExample
      { StatusCode := 404, token := "",
        body := some { mediaType := none, ticket := none, errors := none }, cookies := [] }
      (by simp [Option.mem_def]) (by decide)
  · exact status_error_taxonomy.2.2.2.2.1 { Token := "" } 7
      { StatusCode := 404, token := "", body := some { Username := none, errors := none },
        cookies := [] }
      (by simp [Option.mem_def]) (by decide)
  · exact status_error_taxonomy.2.2.2.2.2 204 (some .jsonDecode) (by omega) (by omega)

/-- Round trip of the codec on lists of cookies with valid names and
values, one line per cookie. -/
theorem readCookies_writeCookies : ∀ (cs : List Cookie),
    (∀ ck ∈ cs, isCookieNameValid ck.Name = true ∧
      ∀ c ∈ ck.Value, validCookieValueByte c = true) →
    ReadCookies (WriteCookies cs) = cs
  | [], _ => rfl
  | ck :: rest, h => by
      have hck := h ck (List.mem_cons_self _ _)
      have hrest := readCookies_writeCookies rest
        (fun c hc => h c (List.mem_cons_of_mem _ hc))
      simp only [WriteCookies, List.map_cons, ReadCookies, List.filterMap_cons]
      rw [readSetCookieLine_cookieString hck.1 hck.2]
      simp only [WriteCookies, ReadCookies] at hrest
      rw [hrest]

/-- C8 (counterexample): the cookie round trip fails for arbitrary cookies.
A cookie whose name contains a space serializes to the empty line
(`http.Cookie.String` rejects invalid names), which the reader skips, so
decoding the encoding loses the cookie entirely. -/
theorem cookie_roundtrip_not_universal :
    WriteCookies [{ Name := ['a', ' ', 'b'], Value := ['v'] }] = [[]]
    ∧ ReadCookies (WriteCookies [{ Name := ['a', ' ', 'b'], Value := ['v'] }]) = []
    ∧ ReadCookies (WriteCookies [{ Name := ['a', ' ', 'b'], Value := ['v'] }])
        ≠ [{ Name := ['a', ' ', 'b'], Value := ['v'] }] := by
  decide

/-- C8 (amended): for every finite list of cookies whose names are valid
cookie names (non-empty token strings) and whose values consist of valid
cookie-value bytes, decoding the encoding yields the same name/value pairs
in the same order; and decoding the empty input yields the empty list with
no error. -/
theorem cookie_roundtrip (cs : List Cookie)
    (h : ∀ ck ∈ cs, isCookieNameValid ck.Name = true ∧
      ∀ c ∈ ck.Value, validCookieValueByte c = true) :
    ReadCookies (WriteCookies cs) = cs ∧ ReadCookies [] = [] :=
  ⟨readCookies_writeCookies cs h, rfl⟩

/-- Witness for C8 (amended): a two-cookie list — one value containing a
space (so it is quoted on the wire) and one empty value — survives the
round trip; the empty input decodes to the empty list. -/
theorem cookie_roundtrip_witness :
    ReadCookies (WriteCookies
        [{ Name := ['n'], Value := ['h', 'i', ' ', 'x'] }, { Name := ['m'], Value := [] }])
      = [{ Name := ['n'], Value := ['h', 'i', ' ', 'x'] }, { Name := ['m'], Value := [] }]
    ∧ ReadCookies [] = [] :=
  cookie_roundtrip
    [{ Name := ['n'], Value := ['h', 'i', ' ', 'x'] }, { Name := ['m'], Value := [] }]
    (by decide)

end Rbxauth
